import Mathlib

/-!
VidVault passkey-backed verification-request state machine.

A shallow embedding of the decision core of `src/server/routes.ts` together
with the storage layer (`DatabaseStorage`) it drives.  Persistent state is a
`Store` record of lists; each route handler becomes a pure function from the
store, the caller's session and the request inputs to a response paired with
the successor store.  The external WebAuthn primitive
(`@simplewebauthn/server.verifyAuthenticationResponse`) is modelled from the
spec as a deterministic check on an abstract assertion.
-/

namespace VidVault

/-- Status column of a verification request (`shared/schema.ts`):
`pending`, `verified`, `rejected` or `ignored`. -/
inductive RequestStatus where
  | pending
  | verified
  | rejected
  | ignored
deriving DecidableEq, Repr

/-- A passkey credential row (`passkeys` table): primary key `id`, owning
user, globally unique `credentialId`, public key, signature counter and the
optional comma-joined transports string. -/
structure Passkey where
  id : String
  userId : String
  credentialId : String
  publicKey : String
  counter : Nat
  transports : Option String
deriving DecidableEq, Repr

/-- A verification request row (`verificationRequests` table): relates one
video to one VIP reviewer, with a status and an optional processing time. -/
structure VerificationRequest where
  id : String
  videoId : String
  vipId : String
  status : RequestStatus
  processedAt : Option Nat
deriving DecidableEq, Repr

/-- The slice of a video row the decision flow can observe: its id and the
uploader it belongs to. -/
structure Video where
  id : String
  uploaderId : String
deriving DecidableEq, Repr

/-- A notification row (`notifications` table) as created by
`createAndBroadcastNotification`: addressee, category tag, title and body. -/
structure Notification where
  userId : String
  kind : String
  title : String
  message : String
deriving DecidableEq, Repr

/-- The persistent store backing `DatabaseStorage`, restricted to the tables
the decision flows read or write. -/
structure Store where
  requests : List VerificationRequest
  passkeys : List Passkey
  videos : List Video
  notifications : List Notification
deriving DecidableEq, Repr

/-- The express session data visible to the handlers: the logged-in user id
and the single in-flight WebAuthn challenge. -/
structure Session where
  userId : Option String
  challenge : Option String
deriving DecidableEq, Repr

/-- The `(rpID, origin)` pair `getWebAuthnConfig` derives from the inbound
request's host and forwarded-protocol headers. -/
structure WebAuthnConfig where
  rpID : String
  origin : String
deriving DecidableEq, Repr

/-- The authentication assertion (`authResult` in the request body): the
credential id it claims, the challenge/origin/rpID the client response was
built over, whether the signature verifies under the credential's public
key, and the authenticator-reported new counter. -/
structure AuthResult where
  id : String
  challenge : String
  origin : String
  rpID : String
  sigValid : Bool
  newCounter : Nat
deriving DecidableEq, Repr

/-- Result record of the WebAuthn verification primitive: the `verified`
flag and `authenticationInfo.newCounter`. -/
structure VerifiedAuthenticationResponse where
  verified : Bool
  newCounter : Nat
deriving DecidableEq, Repr

/-- Modelled from the spec: the external `@simplewebauthn/server`
`verifyAuthenticationResponse` primitive, which the repository calls but
does not contain.  It accepts the assertion exactly when the response was
built over the expected challenge, origin and rpID, names the expected
credential, carries a valid signature, and reports a counter consistent
with clone detection (strictly larger than the stored one, or both zero);
on success it reports the authenticator's new counter. -/
def verifyAuthenticationResponse (response : AuthResult)
    (expectedChallenge expectedOrigin expectedRPID : String)
    (credentialId : String) (storedCounter : Nat) :
    VerifiedAuthenticationResponse :=
  if response.challenge = expectedChallenge ∧
      response.origin = expectedOrigin ∧
      response.rpID = expectedRPID ∧
      response.id = credentialId ∧
      response.sigValid = true ∧
      (storedCounter < response.newCounter ∨
        (response.newCounter = 0 ∧ storedCounter = 0)) then
    ⟨true, response.newCounter⟩
  else
    ⟨false, storedCounter⟩

/-- Accessor `DatabaseStorage.getPasskeysByUser`: all passkeys owned by a user. -/
def getPasskeysByUser (s : Store) (userId : String) : List Passkey :=
  s.passkeys.filter (fun p => p.userId = userId)

/-- Accessor `DatabaseStorage.getPasskeyByCredentialId`: global lookup by the unique
credential id, ignoring ownership. -/
def getPasskeyByCredentialId (s : Store) (credentialId : String) :
    Option Passkey :=
  s.passkeys.find? (fun p => p.credentialId = credentialId)

/-- Accessor `DatabaseStorage.updatePasskeyCounter`: overwrite the counter of the
passkey row with the given primary key. -/
def updatePasskeyCounter (s : Store) (id : String) (counter : Nat) : Store :=
  { s with
    passkeys := s.passkeys.map (fun p =>
      if p.id = id then { p with counter := counter } else p) }

/-- Accessor `DatabaseStorage.getVerificationRequest`: lookup by request id. -/
def getVerificationRequest (s : Store) (id : String) :
    Option VerificationRequest :=
  s.requests.find? (fun r => r.id = id)

/-- Accessor `DatabaseStorage.updateVerificationRequestStatus`: set status and
 `processedAt` on every row matching the id (ids are unique in the
database), returning the first updated row if any.  Note the UPDATE has no
guard on the current status. -/
def updateVerificationRequestStatus (s : Store) (id : String)
    (status : RequestStatus) (now : Nat) :
    Option VerificationRequest × Store :=
  (((s.requests.map (fun r =>
      if r.id = id then { r with status := status, processedAt := some now }
      else r)).filter (fun r => r.id = id)).head?,
    { s with
      requests := s.requests.map (fun r =>
        if r.id = id then { r with status := status, processedAt := some now }
        else r) })

/-- The error responses the decision and ceremony routes can return,
one constructor per distinct error payload in `routes.ts`. -/
inductive ApiError where
  | invalidAction
  | passkeyAuthRequired
  | invalidPasskey
  | passkeyVerificationFailed
  | requestNotFound
  | noRequestIds
  | invalidRequests
  | noPasskeyRegistered
  | passkeyVerificationRequired
  | passkeyNotFound
  | noPasskeysRegistered
deriving DecidableEq, Repr

/-- The `status` string the handlers derive from the action:
`verify → verified`, `reject → rejected`, anything else → `ignored`. -/
def actionToStatus (action : String) : RequestStatus :=
  if action = "verify" then .verified
  else if action = "reject" then .rejected
  else .ignored

/-- Outcome of the single-decision handler: the HTTP response (the updated
request on success) and the successor store. -/
structure SingleOutcome where
  response : Except ApiError VerificationRequest
  store : Store
deriving Repr

/-- The authentication block of `POST /api/vip/verification-requests/:id/:action`
(routes.ts lines 469–507): run only when the action is not `ignore` and the
caller owns at least one passkey; on success it yields the store with the
used passkey's counter overwritten. -/
def singleAuthGate (s : Store) (sess : Session) (cfg : WebAuthnConfig)
    (userId : String) (action : String) (authResult : Option AuthResult) :
    Except ApiError Store :=
  if action ≠ "ignore" ∧ 0 < (getPasskeysByUser s userId).length then
    match authResult with
    | none => .error .passkeyAuthRequired
    | some ar =>
      match getPasskeyByCredentialId s ar.id with
      | none => .error .invalidPasskey
      | some passkey =>
        if (verifyAuthenticationResponse ar (sess.challenge.getD "")
            cfg.origin cfg.rpID passkey.credentialId passkey.counter).verified
            = false then
          .error .passkeyVerificationFailed
        else
          .ok (updatePasskeyCounter s passkey.id
            (verifyAuthenticationResponse ar (sess.challenge.getD "")
              cfg.origin cfg.rpID passkey.credentialId passkey.counter).newCounter)
  else .ok s

/-- Handler `POST /api/vip/verification-requests/:id/:action` (routes.ts 462–521):
validate the action string, run the authentication gate, then apply the
status transition and return the updated request, or 404 if no row
matched. -/
def singleDecision (s : Store) (sess : Session) (cfg : WebAuthnConfig)
    (userId : String) (id : String) (action : String)
    (authResult : Option AuthResult) (now : Nat) : SingleOutcome :=
  if ¬ (action = "verify" ∨ action = "reject" ∨ action = "ignore") then
    ⟨.error .invalidAction, s⟩
  else
    match singleAuthGate s sess cfg userId action authResult with
    | .error e => ⟨.error e, s⟩
    | .ok s1 =>
      match updateVerificationRequestStatus s1 id (actionToStatus action) now with
      | (none, s2) => ⟨.error .requestNotFound, s2⟩
      | (some updated, s2) => ⟨.ok updated, s2⟩

/-- The validity test of the batch validation phase, one fetched request at
a time (routes.ts 541–543): a request is invalid when it is missing, not
owned by the calling reviewer, or not currently pending. -/
def requestInvalid (userId : String) (vr : Option VerificationRequest) : Bool :=
  match vr with
  | none => true
  | some r =>
    if r.vipId = userId ∧ r.status = RequestStatus.pending then false else true

/-- Outcome of the batch-decision handler: the HTTP response (the processed
count on success) and the successor store. -/
structure BatchOutcome where
  response : Except ApiError Nat
  store : Store
deriving Repr

/-- The credential gate and shared verification of
`POST /api/vip/verification-requests/batch/:action` (routes.ts 549–591):
for a non-ignore action, require at least one passkey, an assertion, and
that the assertion names one of the caller's own passkeys; verify it once,
overwriting that passkey's counter on success. -/
def batchAuthGate (s : Store) (sess : Session) (cfg : WebAuthnConfig)
    (userId : String) (action : String) (authResult : Option AuthResult) :
    Except ApiError Store :=
  if action ≠ "ignore" then
    if (getPasskeysByUser s userId).length = 0 then .error .noPasskeyRegistered
    else
      match authResult with
      | none => .error .passkeyVerificationRequired
      | some ar =>
        match (getPasskeysByUser s userId).find?
            (fun p => p.credentialId = ar.id) with
        | none => .error .passkeyNotFound
        | some passkey =>
          if (verifyAuthenticationResponse ar (sess.challenge.getD "")
              cfg.origin cfg.rpID passkey.credentialId passkey.counter).verified
              = false then
            .error .passkeyVerificationFailed
          else
            .ok (updatePasskeyCounter s passkey.id
              (verifyAuthenticationResponse ar (sess.challenge.getD "")
                cfg.origin cfg.rpID passkey.credentialId
                passkey.counter).newCounter)
  else .ok s

/-- Handler `POST /api/vip/verification-requests/batch/:action` (routes.ts 523–604):
validate the action string and the id list, fetch and validate every named
request (all-or-nothing), run the credential gate with its single shared
verification, then apply the status transition to every named request and
answer with the count.  `requestIds = none` models a body whose
`requestIds` field is not an array. -/
def batchDecision (s : Store) (sess : Session) (cfg : WebAuthnConfig)
    (userId : String) (action : String) (requestIds : Option (List String))
    (authResult : Option AuthResult) (now : Nat) : BatchOutcome :=
  if ¬ (action = "verify" ∨ action = "reject" ∨ action = "ignore") then
    ⟨.error .invalidAction, s⟩
  else
    match requestIds with
    | none => ⟨.error .noRequestIds, s⟩
    | some rids =>
      if rids.length = 0 then ⟨.error .noRequestIds, s⟩
      else
        if (rids.map (fun id => getVerificationRequest s id)).any
            (fun vr => requestInvalid userId vr) then
          ⟨.error .invalidRequests, s⟩
        else
          match batchAuthGate s sess cfg userId action authResult with
          | .error e => ⟨.error e, s⟩
          | .ok s1 =>
            ⟨.ok rids.length,
              rids.foldl (fun acc id =>
                (updateVerificationRequestStatus acc id
                  (actionToStatus action) now).2) s1⟩

/-- The options object returned by the authentication-options route: the
fresh challenge and the allow-list of the caller's credential ids. -/
structure AuthOptions where
  challenge : String
  allowCredentials : List String
deriving DecidableEq, Repr

/-- Handler `POST /api/webauthn/authenticate/options` (routes.ts 672–697): refuse a
caller with no passkeys, otherwise build options whose allow-list is
exactly the caller's credential ids and overwrite the session challenge
with the freshly generated one (passed here as `freshChallenge`). -/
def authenticateOptions (s : Store) (sess : Session) (userId : String)
    (freshChallenge : String) : Except ApiError AuthOptions × Session :=
  if (getPasskeysByUser s userId).length = 0 then
    (.error .noPasskeysRegistered, sess)
  else
    (.ok ⟨freshChallenge,
        (getPasskeysByUser s userId).map (fun p => p.credentialId)⟩,
      { sess with challenge := some freshChallenge })

/-- Handler `POST /api/webauthn/register/options` (routes.ts 606–636): build
registration options excluding the caller's existing credential ids and
overwrite the session challenge with the freshly generated one. -/
def registerOptions (s : Store) (sess : Session) (userId : String)
    (freshChallenge : String) : List String × Session :=
  ((getPasskeysByUser s userId).map (fun p => p.credentialId),
    { sess with challenge := some freshChallenge })

/-! Concrete fixtures used by counterexamples and witnesses. -/

/-- A pending verification request addressed to reviewer `vipA`. -/
def reqPendingA : VerificationRequest := ⟨"r1", "v1", "vipA", .pending, none⟩

/-- A verification request already in the terminal state `verified`. -/
def reqVerifiedA : VerificationRequest := ⟨"r2", "v1", "vipA", .verified, some 1⟩

/-- A pending verification request addressed to reviewer `vipB`. -/
def reqPendingB : VerificationRequest := ⟨"r3", "v2", "vipB", .pending, none⟩

/-- The video the fixture requests point at, uploaded by `creator1`. -/
def videoV1 : Video := ⟨"v1", "creator1"⟩

/-- A passkey owned by reviewer `vipA` with counter 10. -/
def pkA : Passkey := ⟨"pk1", "vipA", "credA", "pubA", 10, none⟩

/-- A passkey owned by reviewer `vipB` with counter 5. -/
def pkB : Passkey := ⟨"pk2", "vipB", "credB", "pubB", 5, none⟩

/-- A store in which reviewer `vipA` owns zero passkeys. -/
def storeZeroCred : Store := ⟨[reqPendingA, reqVerifiedA, reqPendingB], [], [videoV1], []⟩

/-- A store in which both reviewers own one passkey each. -/
def storeTwoCreds : Store := ⟨[reqPendingA, reqVerifiedA, reqPendingB], [pkA, pkB], [videoV1], []⟩

/-- A session logged in as `vipA` whose live challenge is `chal1`. -/
def sessChal1 : Session := ⟨some "vipA", some "chal1"⟩

/-- A session logged in as `vipA` with no live challenge. -/
def sessNone : Session := ⟨some "vipA", none⟩

/-- The relying-party pair the fixtures use. -/
def cfg0 : WebAuthnConfig := ⟨"localhost", "https://localhost"⟩

/-- A valid assertion over challenge `chal1` naming `vipA`'s credential. -/
def arA : AuthResult := ⟨"credA", "chal1", "https://localhost", "localhost", true, 11⟩

/-- A valid assertion over challenge `chal1` naming `vipB`'s credential. -/
def arB : AuthResult := ⟨"credB", "chal1", "https://localhost", "localhost", true, 6⟩

/-- An assertion naming `vipA`'s credential but built over a stale challenge
that no session holds. -/
def arStale : AuthResult :=
  ⟨"credA", "stale", "https://localhost", "localhost", true, 12⟩

/-- A session logged in as `vipB` with no live challenge. -/
def sessB : Session := ⟨some "vipB", none⟩

/-! Helper lemmas about the storage operations. -/

/-- The row-updating function of `updateVerificationRequestStatus` never
changes a row's id. -/
theorem updateRow_id (r : VerificationRequest) (id : String)
    (st : RequestStatus) (now : Nat) :
    (if r.id = id then { r with status := st, processedAt := some now }
      else r).id = r.id := by
  split <;> rfl

/-- If the id lookup finds a first matching row, the UPDATE's returned row is
that row with status and `processedAt` overwritten. -/
theorem update_fst_of_find (l : List VerificationRequest) (id : String)
    (st : RequestStatus) (now : Nat) (r : VerificationRequest)
    (h : l.find? (fun x => x.id = id) = some r) :
    ((l.map (fun x =>
        if x.id = id then { x with status := st, processedAt := some now }
        else x)).filter (fun x => x.id = id)).head? =
      some { r with status := st, processedAt := some now } := by
  induction l with
  | nil => simp [List.find?] at h
  | cons a t ih =>
    by_cases ha : a.id = id
    · rw [List.find?_cons_of_pos _ (by simpa using ha)] at h
      cases h
      simp [List.filter_cons, ha]
    · rw [List.find?_cons_of_neg _ (by simpa using ha)] at h
      simpa [List.filter_cons, ha] using ih h

/-- If the UPDATE matched no row, the requests table is unchanged. -/
theorem update_map_eq_of_none (l : List VerificationRequest) (id : String)
    (st : RequestStatus) (now : Nat)
    (h : ((l.map (fun x =>
        if x.id = id then { x with status := st, processedAt := some now }
        else x)).filter (fun x => x.id = id)).head? = none) :
    l.map (fun x =>
        if x.id = id then { x with status := st, processedAt := some now }
        else x) = l := by
  induction l with
  | nil => rfl
  | cons a t ih =>
    by_cases ha : a.id = id
    · exfalso
      simp [List.filter_cons, ha] at h
    · simp only [List.map_cons, if_neg ha, List.filter_cons] at h ⊢
      rw [if_neg (by simpa using ha)] at h
      exact congrArg (a :: ·) (ih h)

/-- The apply phase of the batch operation never touches the passkeys
table. -/
theorem foldl_update_passkeys (rids : List String) (s : Store)
    (st : RequestStatus) (now : Nat) :
    (rids.foldl (fun acc id =>
        (updateVerificationRequestStatus acc id st now).2) s).passkeys =
      s.passkeys := by
  induction rids generalizing s with
  | nil => rfl
  | cons a t ih => exact (ih _).trans rfl

/-- The apply phase of the batch operation never touches the notifications
table. -/
theorem foldl_update_notifications (rids : List String) (s : Store)
    (st : RequestStatus) (now : Nat) :
    (rids.foldl (fun acc id =>
        (updateVerificationRequestStatus acc id st now).2) s).notifications =
      s.notifications := by
  induction rids generalizing s with
  | nil => rfl
  | cons a t ih => exact (ih _).trans rfl

/-- Whatever store the single-decision authentication gate produces agrees
with the input store on every table except passkeys. -/
theorem singleAuthGate_ok_tables (s : Store) (sess : Session)
    (cfg : WebAuthnConfig) (uid action : String) (ar : Option AuthResult)
    (s1 : Store) (h : singleAuthGate s sess cfg uid action ar = .ok s1) :
    s1.requests = s.requests ∧ s1.videos = s.videos ∧
      s1.notifications = s.notifications := by
  unfold singleAuthGate at h
  split at h
  · split at h
    · exact absurd h (by simp)
    · split at h
      · exact absurd h (by simp)
      · split at h
        · exact absurd h (by simp)
        · simp only [Except.ok.injEq] at h
          subst h
          exact ⟨rfl, rfl, rfl⟩
  · simp only [Except.ok.injEq] at h
    subst h
    exact ⟨rfl, rfl, rfl⟩

/-- Same fact for the batch authentication gate. -/
theorem batchAuthGate_ok_tables (s : Store) (sess : Session)
    (cfg : WebAuthnConfig) (uid action : String) (ar : Option AuthResult)
    (s1 : Store) (h : batchAuthGate s sess cfg uid action ar = .ok s1) :
    s1.requests = s.requests ∧ s1.videos = s.videos ∧
      s1.notifications = s.notifications := by
  unfold batchAuthGate at h
  split at h
  · split at h
    · exact absurd h (by simp)
    · split at h
      · exact absurd h (by simp)
      · split at h
        · exact absurd h (by simp)
        · split at h
          · exact absurd h (by simp)
          · simp only [Except.ok.injEq] at h
            subst h
            exact ⟨rfl, rfl, rfl⟩
  · simp only [Except.ok.injEq] at h
    subst h
    exact ⟨rfl, rfl, rfl⟩

/-- With the credential found in the caller's own list, a failed shared
verification stops the batch gate. -/
theorem batchAuthGate_verify_fail (s : Store) (sess : Session)
    (cfg : WebAuthnConfig) (uid action : String) (ar : AuthResult)
    (pk : Passkey) (hig : action ≠ "ignore")
    (hfound : (getPasskeysByUser s uid).find?
      (fun p => p.credentialId = ar.id) = some pk)
    (hv : (verifyAuthenticationResponse ar (sess.challenge.getD "")
        cfg.origin cfg.rpID pk.credentialId pk.counter).verified = false) :
    batchAuthGate s sess cfg uid action (some ar) =
      .error .passkeyVerificationFailed := by
  have hlen : ¬ (getPasskeysByUser s uid).length = 0 := by
    rw [List.length_eq_zero]
    intro h
    rw [h] at hfound
    exact Option.noConfusion hfound
  unfold batchAuthGate
  rw [if_pos hig, if_neg hlen]
  simp [hfound, hv]

/-- With the credential found in the caller's own list, a successful shared
verification lets the batch gate pass with the counter overwritten. -/
theorem batchAuthGate_verify_ok (s : Store) (sess : Session)
    (cfg : WebAuthnConfig) (uid action : String) (ar : AuthResult)
    (pk : Passkey) (hig : action ≠ "ignore")
    (hfound : (getPasskeysByUser s uid).find?
      (fun p => p.credentialId = ar.id) = some pk)
    (hv : (verifyAuthenticationResponse ar (sess.challenge.getD "")
        cfg.origin cfg.rpID pk.credentialId pk.counter).verified = true) :
    batchAuthGate s sess cfg uid action (some ar) =
      .ok (updatePasskeyCounter s pk.id
        (verifyAuthenticationResponse ar (sess.challenge.getD "")
          cfg.origin cfg.rpID pk.credentialId pk.counter).newCounter) := by
  have hlen : ¬ (getPasskeysByUser s uid).length = 0 := by
    rw [List.length_eq_zero]
    intro h
    rw [h] at hfound
    exact Option.noConfusion hfound
  unfold batchAuthGate
  rw [if_pos hig, if_neg hlen]
  simp [hfound, hv]

/-- A credential id outside the caller's own passkey list never lets the
batch gate pass. -/
theorem batchAuthGate_foreign_never_ok (s : Store) (sess : Session)
    (cfg : WebAuthnConfig) (uid action : String) (ar : AuthResult)
    (s1 : Store) (hig : action ≠ "ignore")
    (hown : (getPasskeysByUser s uid).find?
      (fun p => p.credentialId = ar.id) = none)
    (h : batchAuthGate s sess cfg uid action (some ar) = .ok s1) : False := by
  unfold batchAuthGate at h
  rw [if_pos hig] at h
  split at h
  · exact Except.noConfusion h
  · simp [hown] at h

/-- If the id lookup finds nothing, the UPDATE returns no row. -/
theorem update_head_none_of_find_none (l : List VerificationRequest)
    (id : String) (st : RequestStatus) (now : Nat)
    (h : l.find? (fun x => x.id = id) = none) :
    ((l.map (fun x =>
        if x.id = id then { x with status := st, processedAt := some now }
        else x)).filter (fun x => x.id = id)).head? = none := by
  induction l with
  | nil => rfl
  | cons a t ih =>
    by_cases ha : a.id = id
    · rw [List.find?_cons_of_pos _ (by simpa using ha)] at h
      exact absurd h (by simp)
    · rw [List.find?_cons_of_neg _ (by simpa using ha)] at h
      simp only [List.map_cons, if_neg ha, List.filter_cons]
      rw [if_neg (by simpa using ha)]
      exact ih h

/-- A reviewer with zero passkeys sails through the single-decision
authentication gate without any check. -/
theorem singleAuthGate_of_no_passkeys (s : Store) (sess : Session)
    (cfg : WebAuthnConfig) (uid action : String) (ar : Option AuthResult)
    (h : getPasskeysByUser s uid = []) :
    singleAuthGate s sess cfg uid action ar = .ok s := by
  have hc : ¬ (action ≠ "ignore" ∧ 0 < (getPasskeysByUser s uid).length) := by
    rw [h]; simp
  unfold singleAuthGate
  rw [if_neg hc]

/-- The `ignore` action skips the single-decision authentication gate. -/
theorem singleAuthGate_of_ignore (s : Store) (sess : Session)
    (cfg : WebAuthnConfig) (uid : String) (ar : Option AuthResult) :
    singleAuthGate s sess cfg uid "ignore" ar = .ok s := by
  unfold singleAuthGate
  rw [if_neg (by simp)]

/-- With at least one passkey and a non-ignore action, a missing assertion
is refused with the authentication-required error. -/
theorem singleAuthGate_no_assertion (s : Store) (sess : Session)
    (cfg : WebAuthnConfig) (uid action : String)
    (hne : getPasskeysByUser s uid ≠ []) (hact : action ≠ "ignore") :
    singleAuthGate s sess cfg uid action none = .error .passkeyAuthRequired := by
  unfold singleAuthGate
  rw [if_pos ⟨hact, List.length_pos.mpr hne⟩]

/-- With the credential resolved, a failed cryptographic verification stops
the single-decision gate. -/
theorem singleAuthGate_verify_fail (s : Store) (sess : Session)
    (cfg : WebAuthnConfig) (uid action : String) (ar : AuthResult)
    (pk : Passkey)
    (hne : getPasskeysByUser s uid ≠ []) (hact : action ≠ "ignore")
    (hfound : getPasskeyByCredentialId s ar.id = some pk)
    (hv : (verifyAuthenticationResponse ar (sess.challenge.getD "")
        cfg.origin cfg.rpID pk.credentialId pk.counter).verified = false) :
    singleAuthGate s sess cfg uid action (some ar) =
      .error .passkeyVerificationFailed := by
  unfold singleAuthGate
  rw [if_pos ⟨hact, List.length_pos.mpr hne⟩]
  simp [hfound, hv]

/-- With the credential resolved, a successful cryptographic verification
lets the single-decision gate pass with the counter overwritten. -/
theorem singleAuthGate_verify_ok (s : Store) (sess : Session)
    (cfg : WebAuthnConfig) (uid action : String) (ar : AuthResult)
    (pk : Passkey)
    (hne : getPasskeysByUser s uid ≠ []) (hact : action ≠ "ignore")
    (hfound : getPasskeyByCredentialId s ar.id = some pk)
    (hv : (verifyAuthenticationResponse ar (sess.challenge.getD "")
        cfg.origin cfg.rpID pk.credentialId pk.counter).verified = true) :
    singleAuthGate s sess cfg uid action (some ar) =
      .ok (updatePasskeyCounter s pk.id
        (verifyAuthenticationResponse ar (sess.challenge.getD "")
          cfg.origin cfg.rpID pk.credentialId pk.counter).newCounter) := by
  unfold singleAuthGate
  rw [if_pos ⟨hact, List.length_pos.mpr hne⟩]
  simp [hfound, hv]

/-- The single-decision handler propagates a gate error untouched and
leaves the store as it was. -/
theorem singleDecision_gate_error (s : Store) (sess : Session)
    (cfg : WebAuthnConfig) (uid id action : String) (ar : Option AuthResult)
    (now : Nat) (e : ApiError)
    (hact : action = "verify" ∨ action = "reject" ∨ action = "ignore")
    (hg : singleAuthGate s sess cfg uid action ar = .error e) :
    singleDecision s sess cfg uid id action ar now = ⟨.error e, s⟩ := by
  unfold singleDecision
  rw [if_neg (not_not_intro hact), hg]

/-- When the gate passes and the targeted request exists, the
single-decision handler answers with that request overwritten to the
action's terminal status. -/
theorem singleDecision_gate_ok_found (s : Store) (sess : Session)
    (cfg : WebAuthnConfig) (uid id action : String) (ar : Option AuthResult)
    (now : Nat) (s1 : Store) (r : VerificationRequest)
    (hact : action = "verify" ∨ action = "reject" ∨ action = "ignore")
    (hg : singleAuthGate s sess cfg uid action ar = .ok s1)
    (hfind : getVerificationRequest s1 id = some r) :
    singleDecision s sess cfg uid id action ar now =
      ⟨.ok { r with status := actionToStatus action, processedAt := some now },
        (updateVerificationRequestStatus s1 id (actionToStatus action) now).2⟩ := by
  have h2 : updateVerificationRequestStatus s1 id (actionToStatus action) now =
      (some { r with status := actionToStatus action, processedAt := some now },
        (updateVerificationRequestStatus s1 id (actionToStatus action) now).2) :=
    Prod.ext (update_fst_of_find s1.requests id (actionToStatus action) now r hfind) rfl
  unfold singleDecision
  rw [if_neg (not_not_intro hact), hg]
  show (match updateVerificationRequestStatus s1 id (actionToStatus action) now with
    | (none, s2) => SingleOutcome.mk (.error .requestNotFound) s2
    | (some updated, s2) => SingleOutcome.mk (.ok updated) s2) = _
  rw [h2]

/-- When the gate passes but no request matches the id, the single-decision
handler answers 404 with the requests table untouched. -/
theorem singleDecision_gate_ok_missing (s : Store) (sess : Session)
    (cfg : WebAuthnConfig) (uid id action : String) (ar : Option AuthResult)
    (now : Nat) (s1 : Store)
    (hact : action = "verify" ∨ action = "reject" ∨ action = "ignore")
    (hg : singleAuthGate s sess cfg uid action ar = .ok s1)
    (hfind : getVerificationRequest s1 id = none) :
    singleDecision s sess cfg uid id action ar now =
      ⟨.error .requestNotFound, s1⟩ := by
  have hnone := update_head_none_of_find_none s1.requests id
    (actionToStatus action) now hfind
  have h2 : updateVerificationRequestStatus s1 id (actionToStatus action) now =
      (none, s1) := by
    unfold updateVerificationRequestStatus
    rw [hnone, update_map_eq_of_none s1.requests id (actionToStatus action) now hnone]
  unfold singleDecision
  rw [if_neg (not_not_intro hact), hg]
  show (match updateVerificationRequestStatus s1 id (actionToStatus action) now with
    | (none, s2) => SingleOutcome.mk (.error .requestNotFound) s2
    | (some updated, s2) => SingleOutcome.mk (.ok updated) s2) = _
  rw [h2]

/-- Unfolding equation of `batchDecision` for a present id list. -/
theorem batchDecision_some (s : Store) (sess : Session) (cfg : WebAuthnConfig)
    (uid action : String) (rids : List String) (ar : Option AuthResult)
    (now : Nat) :
    batchDecision s sess cfg uid action (some rids) ar now =
      if ¬ (action = "verify" ∨ action = "reject" ∨ action = "ignore") then
        ⟨.error .invalidAction, s⟩
      else if rids.length = 0 then ⟨.error .noRequestIds, s⟩
      else if (rids.map (fun id => getVerificationRequest s id)).any
          (fun vr => requestInvalid uid vr) then
        ⟨.error .invalidRequests, s⟩
      else
        match batchAuthGate s sess cfg uid action ar with
        | .error e => ⟨.error e, s⟩
        | .ok s1 =>
          ⟨.ok rids.length,
            rids.foldl (fun acc id =>
              (updateVerificationRequestStatus acc id
                (actionToStatus action) now).2) s1⟩ := by
  unfold batchDecision
  split <;> rfl

/-- A batch naming one invalid request (missing, foreign, or non-pending)
is rejected wholesale with the store untouched. -/
theorem batchDecision_invalid_rejects (s : Store) (sess : Session)
    (cfg : WebAuthnConfig) (uid action : String) (rids : List String)
    (ar : Option AuthResult) (now : Nat) (rid : String)
    (hact : action = "verify" ∨ action = "reject" ∨ action = "ignore")
    (hmem : rid ∈ rids)
    (hinv : requestInvalid uid (getVerificationRequest s rid) = true) :
    batchDecision s sess cfg uid action (some rids) ar now =
      ⟨.error .invalidRequests, s⟩ := by
  have hlen : ¬ rids.length = 0 := by
    rw [List.length_eq_zero]
    exact List.ne_nil_of_mem hmem
  have hany : (rids.map (fun id => getVerificationRequest s id)).any
      (fun vr => requestInvalid uid vr) = true := by
    rw [List.any_eq_true]
    exact ⟨getVerificationRequest s rid, List.mem_map_of_mem _ hmem, hinv⟩
  rw [batchDecision_some, if_neg (not_not_intro hact), if_neg hlen, if_pos hany]

/-- A batch whose validation passes propagates a gate error untouched. -/
theorem batchDecision_gate_error (s : Store) (sess : Session)
    (cfg : WebAuthnConfig) (uid action : String) (rids : List String)
    (ar : Option AuthResult) (now : Nat) (e : ApiError)
    (hact : action = "verify" ∨ action = "reject" ∨ action = "ignore")
    (hlen : rids ≠ [])
    (hvalid : (rids.map (fun id => getVerificationRequest s id)).any
      (fun vr => requestInvalid uid vr) = false)
    (hg : batchAuthGate s sess cfg uid action ar = .error e) :
    batchDecision s sess cfg uid action (some rids) ar now = ⟨.error e, s⟩ := by
  rw [batchDecision_some, if_neg (not_not_intro hact),
    if_neg (by rwa [List.length_eq_zero]), if_neg (by rw [hvalid]; simp), hg]

/-- A batch whose validation and gate pass applies the transition to every
named request and answers with the count. -/
theorem batchDecision_gate_ok (s : Store) (sess : Session)
    (cfg : WebAuthnConfig) (uid action : String) (rids : List String)
    (ar : Option AuthResult) (now : Nat) (s1 : Store)
    (hact : action = "verify" ∨ action = "reject" ∨ action = "ignore")
    (hlen : rids ≠ [])
    (hvalid : (rids.map (fun id => getVerificationRequest s id)).any
      (fun vr => requestInvalid uid vr) = false)
    (hg : batchAuthGate s sess cfg uid action ar = .ok s1) :
    batchDecision s sess cfg uid action (some rids) ar now =
      ⟨.ok rids.length,
        rids.foldl (fun acc id =>
          (updateVerificationRequestStatus acc id
            (actionToStatus action) now).2) s1⟩ := by
  rw [batchDecision_some, if_neg (not_not_intro hact),
    if_neg (by rwa [List.length_eq_zero]), if_neg (by rw [hvalid]; simp), hg]

/-- Every outcome of the batch handler either leaves the store untouched or
is a success. -/
theorem batchDecision_store_or_ok (s : Store) (sess : Session)
    (cfg : WebAuthnConfig) (uid action : String)
    (rids : Option (List String)) (ar : Option AuthResult) (now : Nat) :
    (batchDecision s sess cfg uid action rids ar now).store = s ∨
      ∃ n, (batchDecision s sess cfg uid action rids ar now).response =
        .ok n := by
  unfold batchDecision
  split
  · exact Or.inl rfl
  · split
    · exact Or.inl rfl
    · split
      · exact Or.inl rfl
      · split
        · exact Or.inl rfl
        · split
          · exact Or.inl rfl
          · exact Or.inr ⟨_, rfl⟩

/-- Full case analysis of the single-decision handler: an invalid action, a
gate failure, a 404 after the gate, or a success. -/
theorem singleDecision_cases (s : Store) (sess : Session)
    (cfg : WebAuthnConfig) (uid id action : String) (ar : Option AuthResult)
    (now : Nat) :
    (¬ (action = "verify" ∨ action = "reject" ∨ action = "ignore") ∧
        singleDecision s sess cfg uid id action ar now =
          ⟨.error .invalidAction, s⟩) ∨
      (∃ e, singleAuthGate s sess cfg uid action ar = .error e ∧
        singleDecision s sess cfg uid id action ar now = ⟨.error e, s⟩) ∨
      (∃ s1, singleAuthGate s sess cfg uid action ar = .ok s1 ∧
        (((updateVerificationRequestStatus s1 id (actionToStatus action) now).1
              = none ∧
            singleDecision s sess cfg uid id action ar now =
              ⟨.error .requestNotFound,
                (updateVerificationRequestStatus s1 id
                  (actionToStatus action) now).2⟩) ∨
          ∃ u, (updateVerificationRequestStatus s1 id
                (actionToStatus action) now).1 = some u ∧
            singleDecision s sess cfg uid id action ar now =
              ⟨.ok u,
                (updateVerificationRequestStatus s1 id
                  (actionToStatus action) now).2⟩)) := by
  unfold singleDecision
  split
  · rename_i hc
    exact Or.inl ⟨hc, rfl⟩
  · split
    · rename_i e hg
      exact Or.inr (Or.inl ⟨e, hg, rfl⟩)
    · rename_i s1 hg
      split
      · rename_i s2 hupd
        refine Or.inr (Or.inr ⟨s1, hg, Or.inl ⟨?_, ?_⟩⟩) <;> rw [hupd]
      · rename_i u s2 hupd
        refine Or.inr (Or.inr ⟨s1, hg, Or.inr ⟨u, ?_, ?_⟩⟩) <;> rw [hupd]

/-! Claim C1. -/

/-- C1, as stated, is false: reviewer `vipA` owns zero credentials, yet the
single-decision operation with action `verify` and no assertion succeeds and
transitions the pending request to `verified` instead of failing with the
authentication-required error. -/
theorem c1_zero_credential_claim_false :
    getPasskeysByUser storeZeroCred "vipA" = [] ∧
      (singleDecision storeZeroCred sessNone cfg0 "vipA" "r1" "verify" none 5).response =
        .ok ⟨"r1", "v1", "vipA", .verified, some 5⟩ ∧
      getVerificationRequest
          (singleDecision storeZeroCred sessNone cfg0 "vipA" "r1" "verify" none 5).store
          "r1" =
        some ⟨"r1", "v1", "vipA", .verified, some 5⟩ ∧
      getVerificationRequest storeZeroCred "r1" =
        some ⟨"r1", "v1", "vipA", .pending, none⟩ :=
  ⟨rfl, rfl, rfl, rfl⟩

/-- C1 (amended): with action `verify` or `reject`, a reviewer owning zero
credentials is not stopped — the cryptographic block is skipped entirely and
an existing request transitions to the action's terminal status with no
credential or counter involvement; the "authentication required" error
occurs exactly when the reviewer owns at least one credential and supplies
no assertion; with action `ignore`, any reviewer transitions the request
with no credential, assertion, or counter update. -/
theorem c1_zero_credential_amended (s : Store) (sess : Session)
    (cfg : WebAuthnConfig) (uid id action : String) (ar : Option AuthResult)
    (now : Nat) (r : VerificationRequest)
    (hact : action = "verify" ∨ action = "reject" ∨ action = "ignore") :
    (getPasskeysByUser s uid = [] → getVerificationRequest s id = some r →
      (singleDecision s sess cfg uid id action ar now).response =
          .ok { r with status := actionToStatus action, processedAt := some now } ∧
        (singleDecision s sess cfg uid id action ar now).store.passkeys =
          s.passkeys) ∧
    (getPasskeysByUser s uid ≠ [] → action ≠ "ignore" →
      singleDecision s sess cfg uid id action none now =
        ⟨.error .passkeyAuthRequired, s⟩) ∧
    (getVerificationRequest s id = some r →
      (singleDecision s sess cfg uid id "ignore" ar now).response =
          .ok { r with status := .ignored, processedAt := some now } ∧
        (singleDecision s sess cfg uid id "ignore" ar now).store.passkeys =
          s.passkeys) := by
  refine ⟨?_, ?_, ?_⟩
  · intro hzero hfind
    have hg := singleAuthGate_of_no_passkeys s sess cfg uid action ar hzero
    rw [singleDecision_gate_ok_found s sess cfg uid id action ar now s r hact
      hg hfind]
    exact ⟨rfl, rfl⟩
  · intro hne hig
    exact singleDecision_gate_error s sess cfg uid id action none now _ hact
      (singleAuthGate_no_assertion s sess cfg uid action hne hig)
  · intro hfind
    have hg := singleAuthGate_of_ignore s sess cfg uid ar
    rw [singleDecision_gate_ok_found s sess cfg uid id "ignore" ar now s r
      (Or.inr (Or.inr rfl)) hg hfind]
    exact ⟨rfl, rfl⟩

/-- Witness for `c1_zero_credential_amended` at concrete inputs. -/
theorem c1_zero_credential_amended_witness :
    (singleDecision storeZeroCred sessNone cfg0 "vipA" "r1" "verify" none 5).response =
        .ok ⟨"r1", "v1", "vipA", .verified, some 5⟩ ∧
      singleDecision storeTwoCreds sessChal1 cfg0 "vipA" "r1" "verify" none 5 =
        ⟨.error .passkeyAuthRequired, storeTwoCreds⟩ ∧
      (singleDecision storeZeroCred sessB cfg0 "vipB" "r3" "ignore" none 7).response =
        .ok ⟨"r3", "v2", "vipB", .ignored, some 7⟩ :=
  ⟨((c1_zero_credential_amended storeZeroCred sessNone cfg0 "vipA" "r1"
      "verify" none 5 reqPendingA (Or.inl rfl)).1 rfl rfl).1,
    (c1_zero_credential_amended storeTwoCreds sessChal1 cfg0 "vipA" "r1"
      "verify" none 5 reqPendingA (Or.inl rfl)).2.1 (by decide) (by decide),
    ((c1_zero_credential_amended storeZeroCred sessB cfg0 "vipB" "r3"
      "ignore" none 7 reqPendingB (Or.inr (Or.inr rfl))).2.2 rfl).1⟩

/-! Claim C2. -/

/-- C2, as stated, is false: request `r2` is already in the terminal state
`verified` with `processedAt = 1`, yet a single-decision `reject` succeeds
and overwrites both status and `processedAt` instead of failing. -/
theorem c2_terminal_claim_false :
    getVerificationRequest storeZeroCred "r2" =
        some ⟨"r2", "v1", "vipA", .verified, some 1⟩ ∧
      (singleDecision storeZeroCred sessNone cfg0 "vipA" "r2" "reject" none 9).response =
        .ok ⟨"r2", "v1", "vipA", .rejected, some 9⟩ ∧
      getVerificationRequest
          (singleDecision storeZeroCred sessNone cfg0 "vipA" "r2" "reject" none 9).store
          "r2" =
        some ⟨"r2", "v1", "vipA", .rejected, some 9⟩ :=
  ⟨rfl, rfl, rfl⟩

/-- C2 (amended): the batch operation refuses any batch naming a non-pending
request, mutating nothing; the single-decision operation, however, performs
no status check — once its credential gate passes (for instance for a
zero-credential reviewer), a decision targeting a non-pending request
succeeds and overwrites status and `processedAt` again. -/
theorem c2_terminal_amended (s : Store) (sess : Session) (cfg : WebAuthnConfig)
    (uid id action : String) (ar : Option AuthResult) (now : Nat)
    (rids : List String) (rid : String) (r : VerificationRequest)
    (hact : action = "verify" ∨ action = "reject" ∨ action = "ignore") :
    (rid ∈ rids → getVerificationRequest s rid = some r →
      r.status ≠ .pending →
      batchDecision s sess cfg uid action (some rids) ar now =
        ⟨.error .invalidRequests, s⟩) ∧
    (getPasskeysByUser s uid = [] → getVerificationRequest s id = some r →
      r.status ≠ .pending →
      (singleDecision s sess cfg uid id action ar now).response =
        .ok { r with status := actionToStatus action, processedAt := some now }) := by
  constructor
  · intro hmem hfind hnp
    apply batchDecision_invalid_rejects s sess cfg uid action rids ar now rid
      hact hmem
    rw [hfind]
    show (if r.vipId = uid ∧ r.status = RequestStatus.pending then false
      else true) = true
    rw [if_neg (fun h => hnp h.2)]
  · intro hzero hfind _
    have hg := singleAuthGate_of_no_passkeys s sess cfg uid action ar hzero
    rw [singleDecision_gate_ok_found s sess cfg uid id action ar now s r hact
      hg hfind]

/-- Witness for `c2_terminal_amended` at concrete inputs. -/
theorem c2_terminal_amended_witness :
    batchDecision storeZeroCred sessNone cfg0 "vipA" "verify" (some ["r2"])
        none 9 =
      ⟨.error .invalidRequests, storeZeroCred⟩ ∧
    (singleDecision storeZeroCred sessNone cfg0 "vipA" "r2" "reject" none 9).response =
      .ok ⟨"r2", "v1", "vipA", .rejected, some 9⟩ :=
  ⟨(c2_terminal_amended storeZeroCred sessNone cfg0 "vipA" "r2" "verify" none
      9 ["r2"] "r2" reqVerifiedA (Or.inl rfl)).1 (by decide) rfl (by decide),
    (c2_terminal_amended storeZeroCred sessNone cfg0 "vipA" "r2" "reject" none
      9 ["r2"] "r2" reqVerifiedA (Or.inr (Or.inl rfl))).2 rfl rfl (by decide)⟩

/-! Claim C3. -/

/-- C3, as stated, is false: request `r1` is addressed to `vipA`, yet caller
`vipB` transitions it to `ignored` through the single-decision operation —
no ownership check runs and the request mutates. -/
theorem c3_ownership_claim_false :
    reqPendingA.vipId = "vipA" ∧ ("vipB" : String) ≠ "vipA" ∧
      (singleDecision storeZeroCred sessB cfg0 "vipB" "r1" "ignore" none 7).response =
        .ok ⟨"r1", "v1", "vipA", .ignored, some 7⟩ ∧
      getVerificationRequest
          (singleDecision storeZeroCred sessB cfg0 "vipB" "r1" "ignore" none 7).store
          "r1" =
        some ⟨"r1", "v1", "vipA", .ignored, some 7⟩ :=
  ⟨rfl, by decide, rfl, rfl⟩

/-- C3 (amended): the single-decision operation performs no ownership check:
once its credential gate passes, a decision on a request addressed to a
different reviewer succeeds and mutates that request; only the batch path
rejects foreign-owned requests, before any write. -/
theorem c3_ownership_amended (s : Store) (sess : Session) (cfg : WebAuthnConfig)
    (uid id action : String) (ar : Option AuthResult) (now : Nat)
    (rids : List String) (rid : String) (r : VerificationRequest)
    (hact : action = "verify" ∨ action = "reject" ∨ action = "ignore") :
    (getPasskeysByUser s uid = [] → getVerificationRequest s id = some r →
      r.vipId ≠ uid →
      (singleDecision s sess cfg uid id action ar now).response =
        .ok { r with status := actionToStatus action, processedAt := some now }) ∧
    (rid ∈ rids → getVerificationRequest s rid = some r → r.vipId ≠ uid →
      batchDecision s sess cfg uid action (some rids) ar now =
        ⟨.error .invalidRequests, s⟩) := by
  constructor
  · intro hzero hfind _
    have hg := singleAuthGate_of_no_passkeys s sess cfg uid action ar hzero
    rw [singleDecision_gate_ok_found s sess cfg uid id action ar now s r hact
      hg hfind]
  · intro hmem hfind hown
    apply batchDecision_invalid_rejects s sess cfg uid action rids ar now rid
      hact hmem
    rw [hfind]
    show (if r.vipId = uid ∧ r.status = RequestStatus.pending then false
      else true) = true
    rw [if_neg (fun h => hown h.1)]

/-- Witness for `c3_ownership_amended` at concrete inputs. -/
theorem c3_ownership_amended_witness :
    (singleDecision storeZeroCred sessB cfg0 "vipB" "r1" "ignore" none 7).response =
        .ok ⟨"r1", "v1", "vipA", .ignored, some 7⟩ ∧
      batchDecision storeZeroCred sessB cfg0 "vipB" "ignore" (some ["r1"])
          none 7 =
        ⟨.error .invalidRequests, storeZeroCred⟩ :=
  ⟨(c3_ownership_amended storeZeroCred sessB cfg0 "vipB" "r1" "ignore" none 7
      ["r1"] "r1" reqPendingA (Or.inr (Or.inr rfl))).1 rfl rfl (by decide),
    (c3_ownership_amended storeZeroCred sessB cfg0 "vipB" "r1" "ignore" none 7
      ["r1"] "r1" reqPendingA (Or.inr (Or.inr rfl))).2 (by decide) rfl
      (by decide)⟩

/-! Claim C4. -/

/-- C4: the batch validation phase is all-or-nothing — if any named request
is missing, foreign-owned, or non-pending, the whole operation fails with
the invalid-requests error and the store (every request's status and
`processedAt`, and every credential counter) is exactly the input store. -/
theorem c4_batch_validation_atomic (s : Store) (sess : Session)
    (cfg : WebAuthnConfig) (uid action : String) (rids : List String)
    (ar : Option AuthResult) (now : Nat) (rid : String)
    (hact : action = "verify" ∨ action = "reject" ∨ action = "ignore")
    (hmem : rid ∈ rids)
    (hinv : getVerificationRequest s rid = none ∨
      ∃ r, getVerificationRequest s rid = some r ∧
        (r.vipId ≠ uid ∨ r.status ≠ .pending)) :
    batchDecision s sess cfg uid action (some rids) ar now =
      ⟨.error .invalidRequests, s⟩ := by
  apply batchDecision_invalid_rejects s sess cfg uid action rids ar now rid
    hact hmem
  rcases hinv with hnone | ⟨r, hsome, hbad⟩
  · rw [hnone]; rfl
  · rw [hsome]
    show (if r.vipId = uid ∧ r.status = RequestStatus.pending then false
      else true) = true
    rcases hbad with h | h
    · rw [if_neg (fun hc => h hc.1)]
    · rw [if_neg (fun hc => h hc.2)]

/-- Witness for `c4_batch_validation_atomic`: a batch in which `r1` is valid
but `r3` belongs to reviewer `vipB` fails wholesale, leaving the store as it
was. -/
theorem c4_batch_validation_atomic_witness :
    batchDecision storeTwoCreds sessChal1 cfg0 "vipA" "verify"
        (some ["r1", "r3"]) (some arA) 5 =
      ⟨.error .invalidRequests, storeTwoCreds⟩ :=
  c4_batch_validation_atomic storeTwoCreds sessChal1 cfg0 "vipA" "verify"
    ["r1", "r3"] (some arA) 5 "r3" (Or.inl rfl) (by decide)
    (Or.inr ⟨reqPendingB, rfl, Or.inl (by decide)⟩)

/-! Claim C5. -/

/-- C5, as stated, is false: reviewer `vipA` presents a valid assertion but
targets a missing request id; the single-decision operation fails with
not-found — a validation failure — yet the credential counter has already
been overwritten from 10 to 11. -/
theorem c5_precheck_claim_false :
    (singleDecision storeTwoCreds sessChal1 cfg0 "vipA" "missing" "verify"
        (some arA) 5).response = .error .requestNotFound ∧
      pkA.counter = 10 ∧ pkA ∈ storeTwoCreds.passkeys ∧
      (singleDecision storeTwoCreds sessChal1 cfg0 "vipA" "missing" "verify"
          (some arA) 5).store.passkeys =
        [⟨"pk1", "vipA", "credA", "pubA", 11, none⟩, pkB] :=
  ⟨rfl, rfl, by decide, rfl⟩

/-- C5 (amended): every validation or cryptographic failure leaves all
persisted state unchanged, except the single-decision missing-request case:
there the request's existence is checked only after verification, so the
credential counter may already be written when the not-found error is
returned; even then the requests table (statuses and `processedAt`) is
untouched.  Batch failures of any kind leave the whole store unchanged. -/
theorem c5_precheck_amended (s : Store) (sess : Session) (cfg : WebAuthnConfig)
    (uid id action : String) (ar : Option AuthResult) (now : Nat)
    (rids : Option (List String)) :
    (∀ e, (singleDecision s sess cfg uid id action ar now).response = .error e →
      e ≠ .requestNotFound →
      (singleDecision s sess cfg uid id action ar now).store = s) ∧
    ((singleDecision s sess cfg uid id action ar now).response =
        .error .requestNotFound →
      (singleDecision s sess cfg uid id action ar now).store.requests =
        s.requests) ∧
    (∀ e, (batchDecision s sess cfg uid action rids ar now).response = .error e →
      (batchDecision s sess cfg uid action rids ar now).store = s) := by
  refine ⟨?_, ?_, ?_⟩
  · intro e he hne
    rcases singleDecision_cases s sess cfg uid id action ar now with
      ⟨_, h⟩ | ⟨e', _, h⟩ | ⟨s1, _, hcase⟩
    · rw [h]
    · rw [h]
    · rcases hcase with ⟨_, h⟩ | ⟨u, _, h⟩
      · rw [h] at he
        exact absurd (Except.noConfusion he (fun hab => hab.symm)) hne
      · rw [h] at he
        exact Except.noConfusion he
  · intro he
    rcases singleDecision_cases s sess cfg uid id action ar now with
      ⟨_, h⟩ | ⟨e', _, h⟩ | ⟨s1, hg, hcase⟩
    · rw [h]
    · rw [h]
    · rcases hcase with ⟨hnone, h⟩ | ⟨u, _, h⟩
      · rw [h]
        have h1 : (updateVerificationRequestStatus s1 id (actionToStatus action)
            now).2.requests = s1.requests :=
          update_map_eq_of_none s1.requests id (actionToStatus action) now hnone
        rw [h1, (singleAuthGate_ok_tables s sess cfg uid action ar s1 hg).1]
      · rw [h] at he
        exact Except.noConfusion he
  · intro e he
    rcases batchDecision_store_or_ok s sess cfg uid action rids ar now with
      h | ⟨n, hn⟩
    · exact h
    · rw [he] at hn
      exact Except.noConfusion hn

/-- Witness for `c5_precheck_amended` at concrete inputs. -/
theorem c5_precheck_amended_witness :
    (singleDecision storeTwoCreds sessChal1 cfg0 "vipA" "r1" "verify" none 5).store =
        storeTwoCreds ∧
      (singleDecision storeTwoCreds sessChal1 cfg0 "vipA" "missing" "verify"
          (some arA) 5).store.requests = storeTwoCreds.requests ∧
      (batchDecision storeTwoCreds sessChal1 cfg0 "vipA" "verify"
          (some ["r1", "r3"]) (some arA) 5).store = storeTwoCreds :=
  ⟨(c5_precheck_amended storeTwoCreds sessChal1 cfg0 "vipA" "r1" "verify"
      none 5 none).1 .passkeyAuthRequired rfl (by decide),
    (c5_precheck_amended storeTwoCreds sessChal1 cfg0 "vipA" "missing"
      "verify" (some arA) 5 none).2.1 rfl,
    (c5_precheck_amended storeTwoCreds sessChal1 cfg0 "vipA" "missing"
      "verify" (some arA) 5 (some ["r1", "r3"])).2.2 .invalidRequests rfl⟩

/-! Claim C6. -/

/-- C6: in both operations the stored counter is written exactly when the
cryptographic verification succeeds — a failed verification aborts with the
store untouched, and a successful one unconditionally overwrites the used
credential's counter with the primitive-reported value. -/
theorem c6_counter_persists_on_success (s : Store) (sess : Session)
    (cfg : WebAuthnConfig) (uid id action : String) (ar : AuthResult)
    (pk : Passkey) (now : Nat) (rids : List String)
    (hact : action = "verify" ∨ action = "reject") :
    (getPasskeysByUser s uid ≠ [] →
      getPasskeyByCredentialId s ar.id = some pk →
      ((verifyAuthenticationResponse ar (sess.challenge.getD "") cfg.origin
          cfg.rpID pk.credentialId pk.counter).verified = false →
        singleDecision s sess cfg uid id action (some ar) now =
          ⟨.error .passkeyVerificationFailed, s⟩) ∧
      ((verifyAuthenticationResponse ar (sess.challenge.getD "") cfg.origin
          cfg.rpID pk.credentialId pk.counter).verified = true →
        (singleDecision s sess cfg uid id action (some ar) now).store.passkeys =
          (updatePasskeyCounter s pk.id
            (verifyAuthenticationResponse ar (sess.challenge.getD "")
              cfg.origin cfg.rpID pk.credentialId pk.counter).newCounter).passkeys)) ∧
    (rids ≠ [] →
      (rids.map (fun i => getVerificationRequest s i)).any
        (fun vr => requestInvalid uid vr) = false →
      (getPasskeysByUser s uid).find?
        (fun p => p.credentialId = ar.id) = some pk →
      ((verifyAuthenticationResponse ar (sess.challenge.getD "") cfg.origin
          cfg.rpID pk.credentialId pk.counter).verified = false →
        batchDecision s sess cfg uid action (some rids) (some ar) now =
          ⟨.error .passkeyVerificationFailed, s⟩) ∧
      ((verifyAuthenticationResponse ar (sess.challenge.getD "") cfg.origin
          cfg.rpID pk.credentialId pk.counter).verified = true →
        (batchDecision s sess cfg uid action (some rids) (some ar) now).store.passkeys =
          (updatePasskeyCounter s pk.id
            (verifyAuthenticationResponse ar (sess.challenge.getD "")
              cfg.origin cfg.rpID pk.credentialId pk.counter).newCounter).passkeys)) := by
  have hact3 : action = "verify" ∨ action = "reject" ∨ action = "ignore" :=
    hact.imp (fun h => h) Or.inl
  have hig : action ≠ "ignore" := by
    rcases hact with h | h <;> subst h <;> decide
  constructor
  · intro hne hfound
    constructor
    · intro hv
      exact singleDecision_gate_error s sess cfg uid id action (some ar) now _
        hact3 (singleAuthGate_verify_fail s sess cfg uid action ar pk hne hig
          hfound hv)
    · intro hv
      have hg := singleAuthGate_verify_ok s sess cfg uid action ar pk hne hig
        hfound hv
      rcases singleDecision_cases s sess cfg uid id action (some ar) now with
        ⟨hc, _⟩ | ⟨e, hg', _⟩ | ⟨s1, hg', hcase⟩
      · exact absurd hact3 hc
      · rw [hg] at hg'
        exact Except.noConfusion hg'
      · rw [hg] at hg'
        have hs1 := Except.noConfusion hg' (fun hab => hab)
        subst hs1
        rcases hcase with ⟨_, h⟩ | ⟨u, _, h⟩ <;> rw [h] <;> rfl
  · intro hlen hvalid hfound
    constructor
    · intro hv
      exact batchDecision_gate_error s sess cfg uid action rids (some ar)
        now _ hact3 hlen hvalid (batchAuthGate_verify_fail s sess cfg uid
          action ar pk hig hfound hv)
    · intro hv
      rw [batchDecision_gate_ok s sess cfg uid action rids (some ar) now _
        hact3 hlen hvalid (batchAuthGate_verify_ok s sess cfg uid action ar
          pk hig hfound hv)]
      exact foldl_update_passkeys rids _ (actionToStatus action) now

/-- Witness for `c6_counter_persists_on_success` at concrete inputs. -/
theorem c6_counter_persists_on_success_witness :
    singleDecision storeTwoCreds sessChal1 cfg0 "vipA" "r1" "verify"
        (some arStale) 5 =
      ⟨.error .passkeyVerificationFailed, storeTwoCreds⟩ ∧
    (singleDecision storeTwoCreds sessChal1 cfg0 "vipA" "r1" "verify"
        (some arA) 5).store.passkeys =
      (updatePasskeyCounter storeTwoCreds "pk1" 11).passkeys ∧
    batchDecision storeTwoCreds sessChal1 cfg0 "vipA" "verify" (some ["r1"])
        (some arStale) 5 =
      ⟨.error .passkeyVerificationFailed, storeTwoCreds⟩ ∧
    (batchDecision storeTwoCreds sessChal1 cfg0 "vipA" "verify" (some ["r1"])
        (some arA) 5).store.passkeys =
      (updatePasskeyCounter storeTwoCreds "pk1" 11).passkeys :=
  ⟨((c6_counter_persists_on_success storeTwoCreds sessChal1 cfg0 "vipA" "r1"
      "verify" arStale pkA 5 ["r1"] (Or.inl rfl)).1 (by decide) rfl).1
      (by decide),
    ((c6_counter_persists_on_success storeTwoCreds sessChal1 cfg0 "vipA" "r1"
      "verify" arA pkA 5 ["r1"] (Or.inl rfl)).1 (by decide) rfl).2 (by decide),
    ((c6_counter_persists_on_success storeTwoCreds sessChal1 cfg0 "vipA" "r1"
      "verify" arStale pkA 5 ["r1"] (Or.inl rfl)).2 (by decide) rfl rfl).1
      (by decide),
    ((c6_counter_persists_on_success storeTwoCreds sessChal1 cfg0 "vipA" "r1"
      "verify" arA pkA 5 ["r1"] (Or.inl rfl)).2 (by decide) rfl rfl).2
      (by decide)⟩

/-! Claim C7. -/

/-- C7: each begin-authentication (and begin-registration) overwrites the
session's single challenge slot, and a decision presenting an assertion
built over the earlier challenge C1 fails verification once a second begin
has installed C2, leaving the store unchanged. -/
theorem c7_challenge_single_use (s : Store) (sess : Session)
    (cfg : WebAuthnConfig) (uid id action c1 c2 : String) (ar : AuthResult)
    (pk : Passkey) (now : Nat)
    (hpk : getPasskeysByUser s uid ≠ [])
    (hact : action = "verify" ∨ action = "reject")
    (hne : c1 ≠ c2) (har : ar.challenge = c1)
    (hfound : getPasskeyByCredentialId s ar.id = some pk) :
    (authenticateOptions s sess uid c1).2.challenge = some c1 ∧
    (authenticateOptions s (authenticateOptions s sess uid c1).2 uid
        c2).2.challenge = some c2 ∧
    (registerOptions s sess uid c2).2.challenge = some c2 ∧
    singleDecision s
        (authenticateOptions s (authenticateOptions s sess uid c1).2 uid c2).2
        cfg uid id action (some ar) now =
      ⟨.error .passkeyVerificationFailed, s⟩ := by
  have hact3 : action = "verify" ∨ action = "reject" ∨ action = "ignore" :=
    hact.imp (fun h => h) Or.inl
  have hig : action ≠ "ignore" := by
    rcases hact with h | h <;> subst h <;> decide
  have hlen : ¬ (getPasskeysByUser s uid).length = 0 := by
    rw [List.length_eq_zero]
    exact hpk
  have h1 : (authenticateOptions s sess uid c1).2 =
      { sess with challenge := some c1 } := by
    unfold authenticateOptions
    rw [if_neg hlen]
  have h2 : (authenticateOptions s (authenticateOptions s sess uid c1).2 uid
      c2).2 = { sess with challenge := some c2 } := by
    rw [h1]
    unfold authenticateOptions
    rw [if_neg hlen]
  refine ⟨by rw [h1], by rw [h2], rfl, ?_⟩
  rw [h2]
  have hv : (verifyAuthenticationResponse ar
      (({ sess with challenge := some c2 } : Session).challenge.getD "")
      cfg.origin cfg.rpID pk.credentialId pk.counter).verified = false := by
    unfold verifyAuthenticationResponse
    rw [if_neg (fun hc => hne (har.symm.trans hc.1))]
  exact singleDecision_gate_error s { sess with challenge := some c2 } cfg uid
    id action (some ar) now _ hact3
    (singleAuthGate_verify_fail s { sess with challenge := some c2 } cfg uid
      action ar pk hpk hig hfound hv)

/-- Witness for `c7_challenge_single_use` at concrete inputs. -/
theorem c7_challenge_single_use_witness :
    (authenticateOptions storeTwoCreds sessNone "vipA" "chal1").2.challenge =
        some "chal1" ∧
      (authenticateOptions storeTwoCreds
          (authenticateOptions storeTwoCreds sessNone "vipA" "chal1").2 "vipA"
          "chal2").2.challenge = some "chal2" ∧
      (registerOptions storeTwoCreds sessNone "vipA" "chal2").2.challenge =
        some "chal2" ∧
      singleDecision storeTwoCreds
          (authenticateOptions storeTwoCreds
            (authenticateOptions storeTwoCreds sessNone "vipA" "chal1").2
            "vipA" "chal2").2 cfg0 "vipA" "r1" "verify" (some arA) 5 =
        ⟨.error .passkeyVerificationFailed, storeTwoCreds⟩ :=
  c7_challenge_single_use storeTwoCreds sessNone cfg0 "vipA" "r1" "verify"
    "chal1" "chal2" arA pkA 5 (by decide) (Or.inl rfl) (by decide) rfl rfl

/-! Claim C8. -/

/-- C8, as stated, is false: a successful single decision on a request whose
video belongs to uploader `creator1` emits no notification at all — the
notifications table stays empty instead of gaining one event addressed to
the uploader. -/
theorem c8_notification_claim_false :
    storeZeroCred.notifications = [] ∧ videoV1 ∈ storeZeroCred.videos ∧
      videoV1.uploaderId = "creator1" ∧
      (singleDecision storeZeroCred sessNone cfg0 "vipA" "r1" "verify" none
          5).response = .ok ⟨"r1", "v1", "vipA", .verified, some 5⟩ ∧
      (singleDecision storeZeroCred sessNone cfg0 "vipA" "r1" "verify" none
          5).store.notifications = [] :=
  ⟨rfl, by decide, rfl, rfl, rfl⟩

/-- C8 (amended): neither decision operation emits any notification event —
on every path, single and batch decisions leave the notifications table
exactly as it was (notifications are created only by the upload and
authorization-request routes, which are outside the decision flows). -/
theorem c8_no_notification_amended (s : Store) (sess : Session)
    (cfg : WebAuthnConfig) (uid id action : String) (ar : Option AuthResult)
    (now : Nat) (rids : Option (List String)) :
    (singleDecision s sess cfg uid id action ar now).store.notifications =
        s.notifications ∧
      (batchDecision s sess cfg uid action rids ar now).store.notifications =
        s.notifications := by
  constructor
  · rcases singleDecision_cases s sess cfg uid id action ar now with
      ⟨_, h⟩ | ⟨e, _, h⟩ | ⟨s1, hg, hcase⟩
    · rw [h]
    · rw [h]
    · have hn := (singleAuthGate_ok_tables s sess cfg uid action ar s1 hg).2.2
      rcases hcase with ⟨_, h⟩ | ⟨u, _, h⟩ <;> rw [h] <;> exact hn
  · unfold batchDecision
    split
    · rfl
    · split
      · rfl
      · split
        · rfl
        · split
          · rfl
          · split
            · rfl
            · rename_i s1 hg
              have hn :=
                (batchAuthGate_ok_tables s sess cfg uid action ar s1 hg).2.2
              simpa [foldl_update_notifications] using hn

/-! Claim C9. -/

/-- C9: the single-decision path resolves the asserted credential globally,
with no ownership check — in the fixture state, caller `vipA` completes a
decision by verifying against `vipB`'s credential and overwrites `vipB`'s
counter — whereas the batch path accepts only credentials drawn from the
caller's own list: with a foreign credential id it never succeeds and never
mutates the store. -/
theorem c9_credential_scope (s : Store) (sess : Session)
    (cfg : WebAuthnConfig) (uid action : String)
    (rids : Option (List String)) (ar : AuthResult) (now : Nat)
    (hact : action = "verify" ∨ action = "reject")
    (hown : (getPasskeysByUser s uid).find?
      (fun p => p.credentialId = ar.id) = none) :
    pkB.userId = "vipB" ∧ ("vipA" : String) ≠ "vipB" ∧
      (singleDecision storeTwoCreds sessChal1 cfg0 "vipA" "r1" "verify"
          (some arB) 5).response =
        .ok ⟨"r1", "v1", "vipA", .verified, some 5⟩ ∧
      (singleDecision storeTwoCreds sessChal1 cfg0 "vipA" "r1" "verify"
          (some arB) 5).store.passkeys =
        [pkA, ⟨"pk2", "vipB", "credB", "pubB", 6, none⟩] ∧
      (∀ n, (batchDecision s sess cfg uid action rids (some ar) now).response ≠
        .ok n) ∧
      (batchDecision s sess cfg uid action rids (some ar) now).store = s := by
  have hig : action ≠ "ignore" := by
    rcases hact with h | h <;> subst h <;> decide
  have hnotok : ∀ n,
      (batchDecision s sess cfg uid action rids (some ar) now).response ≠
        .ok n := by
    intro n hn
    unfold batchDecision at hn
    split at hn
    · exact Except.noConfusion hn
    · split at hn
      · exact Except.noConfusion hn
      · split at hn
        · exact Except.noConfusion hn
        · split at hn
          · exact Except.noConfusion hn
          · split at hn
            · exact Except.noConfusion hn
            · rename_i s1 hg
              exact batchAuthGate_foreign_never_ok s sess cfg uid action ar
                s1 hig hown hg
  refine ⟨rfl, by decide, rfl, rfl, hnotok, ?_⟩
  rcases batchDecision_store_or_ok s sess cfg uid action rids (some ar) now
    with h | ⟨n, hn⟩
  · exact h
  · exact absurd hn (hnotok n)

/-- Witness for `c9_credential_scope` at concrete inputs. -/
theorem c9_credential_scope_witness :
    (batchDecision storeTwoCreds sessChal1 cfg0 "vipA" "verify" (some ["r1"])
        (some arB) 5).store = storeTwoCreds ∧
      (batchDecision storeTwoCreds sessChal1 cfg0 "vipA" "verify"
          (some ["r1"]) (some arB) 5).response ≠ .ok 1 :=
  ⟨(c9_credential_scope storeTwoCreds sessChal1 cfg0 "vipA" "verify"
      (some ["r1"]) arB 5 (Or.inl rfl) (by decide)).2.2.2.2.2,
    (c9_credential_scope storeTwoCreds sessChal1 cfg0 "vipA" "verify"
      (some ["r1"]) arB 5 (Or.inl rfl) (by decide)).2.2.2.2.1 1⟩

/-! Claim C10. -/

/-- C10: a batch whose id list is absent (not an array) or empty fails with
the no-request-ids error and the store is exactly the input store — nothing
is read past the shape check and nothing is written. -/
theorem c10_batch_empty_rejected (s : Store) (sess : Session)
    (cfg : WebAuthnConfig) (uid action : String) (ar : Option AuthResult)
    (now : Nat)
    (hact : action = "verify" ∨ action = "reject" ∨ action = "ignore") :
    batchDecision s sess cfg uid action none ar now =
        ⟨.error .noRequestIds, s⟩ ∧
      batchDecision s sess cfg uid action (some []) ar now =
        ⟨.error .noRequestIds, s⟩ := by
  constructor
  · unfold batchDecision
    rw [if_neg (not_not_intro hact)]
  · rw [batchDecision_some, if_neg (not_not_intro hact)]
    exact if_pos rfl

/-- Witness for `c10_batch_empty_rejected` at concrete inputs. -/
theorem c10_batch_empty_rejected_witness :
    batchDecision storeTwoCreds sessChal1 cfg0 "vipA" "verify" none
        (some arA) 5 =
      ⟨.error .noRequestIds, storeTwoCreds⟩ ∧
    batchDecision storeTwoCreds sessChal1 cfg0 "vipA" "verify" (some [])
        (some arA) 5 =
      ⟨.error .noRequestIds, storeTwoCreds⟩ :=
  c10_batch_empty_rejected storeTwoCreds sessChal1 cfg0 "vipA" "verify"
    (some arA) 5 (Or.inl rfl)

end VidVault
